import Mathlib

/-!
Shallow embedding of the quota-governed recording lifecycle of the btl_python
repository: the SQL stored procedures and trigger that own the subscription
ledger (usage_count / used_seconds), the recording + segment tables, the
monthly cycle rollover and the user statistics query.

Sources embedded:
- backend/scripts/procedure/02_sp_check_quota_and_create_recording.sql
- backend/scripts/procedure/03_sp_complete_recording.sql
- backend/scripts/procedure/05_sp_get_user_stats.sql
- sp_reset_monthly_cycles, sp_change_user_plan, trg_increment_usage_on_recording
  (the race-condition-safe version that joins plans and guards the update)
- table shapes from the schema DDL in the repository docs
  (plans, user_subscriptions, recordings, segments).

Timestamps (TIMESTAMPTZ) are modelled as integers (seconds); date_trunc with
month granularity is modelled with a uniform month length, keeping the two
properties the procedures rely on: the truncation of t is at most t, and t is
strictly below the truncation plus one month.  UUIDs are modelled as naturals;
gen_random_uuid for recordings is modelled by a fresh-id counter on the state.
PL/pgSQL exceptions are modelled with Except: a raised exception rolls the
enclosing block back, so an erroring call leaves the state as the handler
(if any) produced it, and an erroring statement contributes no state change.
-/

namespace BTL

abbrev Uuid := Nat

abbrev Ts := Int

/-- Row of the plans table: code, allowances and the soft-delete flag.
The is_active column itself lives in the alembic migrations (not part of the
extracted sources); it is included here per the spec, which describes plans
as carrying an active flag that deactivation toggles.  None of the embedded
procedures read it. -/
structure Plan where
  id : Uuid
  code : String
  monthly_minutes : Int
  monthly_usage_limit : Int
  is_active : Bool
  deriving Repr, DecidableEq

/-- Row of user_subscriptions: plan reference, cycle window, the two usage
counters, and the plan snapshot columns documented in the subscription
module. -/
structure Subscription where
  id : Uuid
  user_id : Uuid
  plan_id : Uuid
  cycle_start : Ts
  cycle_end : Ts
  usage_count : Int
  used_seconds : Int
  plan_code_snapshot : String
  plan_name_snapshot : String
  plan_monthly_minutes_snapshot : Int
  plan_monthly_usage_limit_snapshot : Int
  deriving Repr, DecidableEq

/-- Recording status values of the lifecycle: the docs list pending,
processing, done, failed; the schema DDL declares DEFAULT 'processing' for
newly inserted rows. -/
inductive RecStatus where
  | pending
  | processing
  | done
  | failed
  deriving Repr, DecidableEq

/-- Row of the recordings table. -/
structure Recording where
  id : Uuid
  user_id : Uuid
  source : String
  language : String
  status : RecStatus
  duration_ms : Int
  created_at : Ts
  completed_at : Option Ts
  deriving Repr, DecidableEq

/-- Row of the segments table. -/
structure Segment where
  recording_id : Uuid
  idx : Int
  start_ms : Int
  end_ms : Int
  text : String
  deriving Repr, DecidableEq

/-- One inbound JSON segment object as received by sp_complete_recording:
each attribute extracted with the ->> operator may be absent (NULL), which
makes the INSERT raise (NOT NULL violation / failed cast). -/
structure RawSeg where
  idx : Option Int
  start_ms : Option Int
  end_ms : Option Int
  text : String
  deriving Repr, DecidableEq

/-- The relational state the procedures act on. -/
structure DB where
  plans : List Plan
  subscriptions : List Subscription
  recordings : List Recording
  segments : List Segment
  nextRecordingId : Uuid
  deriving Repr, DecidableEq

/-- SELECT from user_subscriptions WHERE user_id = uid AND now() >= cycle_start
AND now() < cycle_end, as used identically by every embedded procedure. -/
def activeSubscription (db : DB) (now : Ts) (uid : Uuid) : Option Subscription :=
  db.subscriptions.find? fun s =>
    decide (s.user_id = uid ∧ s.cycle_start ≤ now ∧ now < s.cycle_end)

/-- SELECT from plans WHERE id = pid. -/
def findPlan (db : DB) (pid : Uuid) : Option Plan :=
  db.plans.find? fun p => decide (p.id = pid)

/-- trg_increment_usage_on_recording (race-condition-safe version): lock the
active subscription joined with its plan, raise when the join is empty or the
quota is reached, then increment usage_count for the active rows whose count
is still below the limit, raising when no row was updated. -/
def trg_increment_usage_on_recording (db : DB) (now : Ts) (newRow : Recording) :
    Except String DB :=
  match activeSubscription db now newRow.user_id with
  | none => Except.error "No active subscription found for user_id"
  | some sub =>
    match findPlan db sub.plan_id with
    | none =>
      -- the INNER JOIN with plans drops the row, so NOT FOUND fires
      Except.error "No active subscription found for user_id"
    | some plan =>
      if sub.usage_count ≥ plan.monthly_usage_limit then
        Except.error "Usage quota exceeded for user_id"
      else
        let cond : Subscription → Prop := fun s =>
          s.user_id = newRow.user_id ∧ s.cycle_start ≤ now ∧ now < s.cycle_end ∧
            s.usage_count < plan.monthly_usage_limit
        let updated := db.subscriptions.map fun s =>
          if cond s then { s with usage_count := s.usage_count + 1 } else s
        let rowsUpdated := db.subscriptions.countP fun s => decide (cond s)
        if rowsUpdated = 0 then
          Except.error "Failed to increment usage for user_id"
        else
          Except.ok { db with subscriptions := updated }

/-- The row built by INSERT INTO recordings (user_id, source, language) with
the column defaults: status DEFAULT processing per the schema DDL,
duration_ms 0, created_at now(), completed_at NULL, id freshly generated. -/
def newRecordingRow (db : DB) (now : Ts) (uid : Uuid) (src lang : String) :
    Recording :=
  { id := db.nextRecordingId, user_id := uid, source := src, language := lang,
    status := RecStatus.processing, duration_ms := 0, created_at := now,
    completed_at := none }

/-- INSERT INTO recordings (user_id, source, language) with the column
defaults, firing the AFTER INSERT trigger; a raise inside the trigger aborts
the INSERT as well. -/
def insertRecording (db : DB) (now : Ts) (uid : Uuid) (src lang : String) :
    Except String (Uuid × DB) :=
  let newRec : Recording := newRecordingRow db now uid src lang
  let db1 : DB :=
    { db with recordings := db.recordings ++ [newRec],
              nextRecordingId := db.nextRecordingId + 1 }
  match trg_increment_usage_on_recording db1 now newRec with
  | Except.error e => Except.error e
  | Except.ok db2 => Except.ok (newRec.id, db2)

/-- Outcome rows of sp_check_quota_and_create_recording (recording_id,
quota_ok, error_message). -/
inductive ReserveResult where
  | noSubscription
  | usageLimitReached (limit : Int)
  | minutesLimitReached (limit : Int)
  | created (recording_id : Uuid)
  deriving Repr, DecidableEq

/-- sp_check_quota_and_create_recording: load the active subscription, load
its plan, check usage_count against monthly_usage_limit, check used_seconds
against monthly_minutes * 60, then INSERT the recording (the trigger
increments usage_count).  When the plan row is absent the two IF conditions
compare against NULL and are therefore not taken, so control falls through to
the INSERT (the trigger then raises on its empty join). -/
def sp_check_quota_and_create_recording (db : DB) (now : Ts) (uid : Uuid)
    (src lang : String) : Except String (ReserveResult × DB) :=
  match activeSubscription db now uid with
  | none => Except.ok (ReserveResult.noSubscription, db)
  | some sub =>
    match findPlan db sub.plan_id with
    | some plan =>
      if sub.usage_count ≥ plan.monthly_usage_limit then
        Except.ok (ReserveResult.usageLimitReached plan.monthly_usage_limit, db)
      else if sub.used_seconds ≥ plan.monthly_minutes * 60 then
        Except.ok (ReserveResult.minutesLimitReached plan.monthly_minutes, db)
      else
        match insertRecording db now uid src lang with
        | Except.error e => Except.error e
        | Except.ok (rid, db2) => Except.ok (ReserveResult.created rid, db2)
    | none =>
      match insertRecording db now uid src lang with
      | Except.error e => Except.error e
      | Except.ok (rid, db2) => Except.ok (ReserveResult.created rid, db2)

/-- The EXCEPTION handler of sp_complete_recording: UPDATE recordings SET
status = failed WHERE id = rid, applied to the state as rolled back to the
start of the block. -/
def markFailed (db : DB) (rid : Uuid) : DB :=
  { db with recordings := db.recordings.map fun r =>
      if r.id = rid then { r with status := RecStatus.failed } else r }

/-- Extraction and cast of one JSON segment element, as done by the INSERT
SELECT of sp_complete_recording; a missing attribute yields NULL and the
INSERT raises. -/
def castSeg (rid : Uuid) (s : RawSeg) : Option Segment :=
  match s.idx, s.start_ms, s.end_ms with
  | some i, some a, some b =>
    some { recording_id := rid, idx := i, start_ms := a, end_ms := b, text := s.text }
  | _, _, _ => none

/-- sp_complete_recording: set the recording done with its duration and
completion time (whatever its current status), batch insert the segments
verbatim, then add duration_ms / 1000 (integer division) to used_seconds of
the subscription of the returned user whose cycle window contains now().
On any raise, the block is rolled back and the handler marks the recording
failed before re-raising (the error value carries the handler state). -/
def sp_complete_recording (db : DB) (now : Ts) (rid : Uuid) (in_duration_ms : Int)
    (in_segments : List RawSeg) : Except DB DB :=
  let vUserId := (db.recordings.find? fun r => decide (r.id = rid)).map Recording.user_id
  let db1 : DB :=
    { db with recordings := db.recordings.map fun r =>
        if r.id = rid then
          { r with status := RecStatus.done, duration_ms := in_duration_ms,
                   completed_at := some now }
        else r }
  match in_segments.mapM (castSeg rid) with
  | none => Except.error (markFailed db rid)
  | some segs =>
    if in_segments ≠ [] ∧ vUserId = none then
      -- the INSERT references a recording id that does not exist: FK raise
      Except.error (markFailed db rid)
    else
      let db2 : DB := { db1 with segments := db1.segments ++ segs }
      let vDurationSeconds := Int.tdiv in_duration_ms 1000
      match vUserId with
      | none => Except.ok db2
      | some uid =>
        Except.ok { db2 with subscriptions := db2.subscriptions.map fun s =>
          if s.user_id = uid ∧ s.cycle_start ≤ now ∧ now < s.cycle_end then
            { s with used_seconds := s.used_seconds + vDurationSeconds }
          else s }

/-- Uniform month length used to model date_trunc with month granularity and
INTERVAL of one month (timestamps are integer seconds). -/
def monthLenSeconds : Int := 2592000

/-- date_trunc to the containing month start. -/
def dateTruncMonth (t : Ts) : Ts := monthLenSeconds * (t / monthLenSeconds)

/-- sp_reset_monthly_cycles: one UPDATE that, for every subscription whose
cycle_end has passed, resets both counters and re-aims the cycle window at
the current month. -/
def sp_reset_monthly_cycles (db : DB) (now : Ts) : DB :=
  let vCycleStart := dateTruncMonth now
  let vCycleEnd := vCycleStart + monthLenSeconds
  { db with subscriptions := db.subscriptions.map fun s =>
      if s.cycle_end ≤ now then
        { s with cycle_start := vCycleStart, cycle_end := vCycleEnd,
                 usage_count := 0, used_seconds := 0 }
      else s }

/-- OUT parameters of sp_change_user_plan. -/
structure ChangePlanResult where
  success : Bool
  message : String
  deriving Repr, DecidableEq

/-- sp_change_user_plan: resolve the plan by code, load the active
subscription, reject a change to the current plan, otherwise update plan_id
and, when in_prorate, additionally reset the two counters. -/
def sp_change_user_plan (db : DB) (now : Ts) (uid : Uuid)
    (in_new_plan_code : String) (in_prorate : Bool) : ChangePlanResult × DB :=
  match db.plans.find? (fun p => decide (p.code = in_new_plan_code)) with
  | none => ({ success := false, message := "Plan not found" }, db)
  | some newPlan =>
    match activeSubscription db now uid with
    | none => ({ success := false, message := "No active subscription found" }, db)
    | some sub =>
      if sub.plan_id = newPlan.id then
        ({ success := false, message := "Already on this plan" }, db)
      else
        let subs1 := db.subscriptions.map fun s =>
          if s.id = sub.id then { s with plan_id := newPlan.id } else s
        let subs2 :=
          if in_prorate then
            subs1.map fun s =>
              if s.id = sub.id then { s with usage_count := 0, used_seconds := 0 }
              else s
          else subs1
        ({ success := true, message := "Successfully changed plan" },
          { db with subscriptions := subs2 })

/-- Result row of sp_get_user_stats. -/
structure UserStats where
  total_recordings : Int
  total_duration_minutes : Rat
  total_segments : Int
  current_cycle_usage : Int
  current_cycle_seconds : Int
  quota_usage_percent : Rat
  quota_minutes_percent : Rat
  deriving Repr, DecidableEq

/-- The all-zero row returned when the user has no active subscription. -/
def zeroStats : UserStats :=
  { total_recordings := 0, total_duration_minutes := 0, total_segments := 0,
    current_cycle_usage := 0, current_cycle_seconds := 0,
    quota_usage_percent := 0, quota_minutes_percent := 0 }

/-- sp_get_user_stats: with no active subscription return a single all-zero
row; otherwise aggregate the user recordings and segments and compute the two
percentages, each guarded by a CASE WHEN limit > 0 (a NULL plan field also
falls to the ELSE 0). -/
def sp_get_user_stats (db : DB) (now : Ts) (uid : Uuid) : UserStats :=
  match activeSubscription db now uid with
  | none => zeroStats
  | some sub =>
    let planOpt := findPlan db sub.plan_id
    let userRecs := db.recordings.filter fun r => decide (r.user_id = uid)
    let sumDur : Int := (userRecs.map Recording.duration_ms).sum
    let segCount : Int := (db.segments.filter fun sg =>
        decide (∃ r ∈ db.recordings, r.id = sg.recording_id ∧ r.user_id = uid)).length
    { total_recordings := userRecs.length,
      total_duration_minutes :=
        if userRecs = [] then 0 else (sumDur : Rat) / 60000,
      total_segments := segCount,
      current_cycle_usage := sub.usage_count,
      current_cycle_seconds := sub.used_seconds,
      quota_usage_percent :=
        match planOpt with
        | some p =>
          if p.monthly_usage_limit > 0 then
            (sub.usage_count : Rat) / (p.monthly_usage_limit : Rat) * 100
          else 0
        | none => 0,
      quota_minutes_percent :=
        match planOpt with
        | some p =>
          if p.monthly_minutes > 0 then
            (sub.used_seconds : Rat) / ((p.monthly_minutes : Rat) * 60) * 100
          else 0
        | none => 0 }

/-- Decidable check of the job-count half of the ledger invariant: every
subscription is within its plan monthly_usage_limit. -/
def usageInvariantB (db : DB) : Bool :=
  db.subscriptions.all fun s =>
    match findPlan db s.plan_id with
    | some p => decide (s.usage_count ≤ p.monthly_usage_limit)
    | none => true

/-- Decidable check of the seconds half of the ledger invariant: every
subscription is within its plan monthly_minutes * 60. -/
def minuteInvariantB (db : DB) : Bool :=
  db.subscriptions.all fun s =>
    match findPlan db s.plan_id with
    | some p => decide (s.used_seconds ≤ p.monthly_minutes * 60)
    | none => true

/-- A FREE-like plan row used by the concrete states below. -/
def exPlan : Plan :=
  { id := 1, code := "FREE", monthly_minutes := 30, monthly_usage_limit := 10,
    is_active := true }

/-- State for exercising a duplicate completion callback: one subscription in
cycle, one recording in processing. -/
def c1db : DB :=
  { plans := [exPlan],
    subscriptions := [
      { id := 5, user_id := 1, plan_id := 1, cycle_start := 0,
        cycle_end := 100, usage_count := 1, used_seconds := 0,
        plan_code_snapshot := "FREE", plan_name_snapshot := "Free",
        plan_monthly_minutes_snapshot := 30, plan_monthly_usage_limit_snapshot := 10 }],
    recordings := [
      { id := 1, user_id := 1, source := "upload", language := "vi",
        status := RecStatus.processing, duration_ms := 0, created_at := 0,
        completed_at := none }],
    segments := [],
    nextRecordingId := 2 }

/-- A single well-formed inbound segment. -/
def c1segs : List RawSeg :=
  [{ idx := some 0, start_ms := some 0, end_ms := some 1000, text := "hello" }]

/-- A subscription row on the FREE-like plan with free quota. -/
def c2sub : Subscription :=
  { id := 5, user_id := 1, plan_id := 1, cycle_start := 0,
    cycle_end := 100, usage_count := 0, used_seconds := 0,
    plan_code_snapshot := "FREE", plan_name_snapshot := "Free",
    plan_monthly_minutes_snapshot := 30, plan_monthly_usage_limit_snapshot := 10 }

/-- State for exercising a fresh reservation: subscription with free quota,
no recordings yet. -/
def c2db : DB :=
  { plans := [exPlan], subscriptions := [c2sub],
    recordings := [], segments := [], nextRecordingId := 7 }

/-- State one second of quota short of the minute allowance (plan allows one
minute, 59 seconds already used), with a processing recording in flight. -/
def c3db : DB :=
  { plans := [
      { id := 1, code := "MINI", monthly_minutes := 1,
        monthly_usage_limit := 10, is_active := true }],
    subscriptions := [
      { id := 5, user_id := 1, plan_id := 1, cycle_start := 0,
        cycle_end := 100, usage_count := 1, used_seconds := 59,
        plan_code_snapshot := "MINI", plan_name_snapshot := "Mini",
        plan_monthly_minutes_snapshot := 1, plan_monthly_usage_limit_snapshot := 10 }],
    recordings := [
      { id := 1, user_id := 1, source := "upload", language := "vi",
        status := RecStatus.processing, duration_ms := 0, created_at := 0,
        completed_at := none }],
    segments := [],
    nextRecordingId := 2 }

/-- A recording created at time 5, before the cycle window of c5db opened. -/
def c5rec : Recording :=
  { id := 1, user_id := 1, source := "upload", language := "vi",
    status := RecStatus.processing, duration_ms := 0, created_at := 5,
    completed_at := none }

/-- State in which the current cycle window [10, 20) does not contain the
creation time (5) of the in-flight recording: the cycle the recording was
reserved in has already been rolled over. -/
def c5db : DB :=
  { plans := [exPlan],
    subscriptions := [
      { id := 5, user_id := 1, plan_id := 1, cycle_start := 10,
        cycle_end := 20, usage_count := 0, used_seconds := 0,
        plan_code_snapshot := "FREE", plan_name_snapshot := "Free",
        plan_monthly_minutes_snapshot := 30, plan_monthly_usage_limit_snapshot := 10 }],
    recordings := [c5rec],
    segments := [],
    nextRecordingId := 2 }

/-- State whose only recording is already in the terminal done status. -/
def c6db : DB :=
  { plans := [exPlan],
    subscriptions := [
      { id := 5, user_id := 1, plan_id := 1, cycle_start := 0,
        cycle_end := 100, usage_count := 1, used_seconds := 2,
        plan_code_snapshot := "FREE", plan_name_snapshot := "Free",
        plan_monthly_minutes_snapshot := 30, plan_monthly_usage_limit_snapshot := 10 }],
    recordings := [
      { id := 1, user_id := 1, source := "upload", language := "vi",
        status := RecStatus.done, duration_ms := 2000, created_at := 0,
        completed_at := some 3 }],
    segments := [],
    nextRecordingId := 2 }

/-- A malformed inbound segment list: index 5 is not contiguous from 0 and
start_ms exceeds end_ms. -/
def c6segs : List RawSeg :=
  [{ idx := some 5, start_ms := some 10, end_ms := some 3, text := "x" }]

/-- C1: sp_complete_recording is not idempotent.  On a recording in
processing, one completion call with duration 2000 ms and one segment leaves
used_seconds at 2 and one segment row; the identical duplicate call goes
through again, inserts the segment a second time and charges a further 2
seconds, ending at used_seconds 4 and two segment rows.  The procedure never
reads the current status, so the duplicate is not detected. -/
theorem sp_complete_recording_double_call_double_charges :
    (Except.toOption (sp_complete_recording c1db 10 1 2000 c1segs)).map
        (fun d => (d.subscriptions.map Subscription.used_seconds, d.segments.length))
      = some ([2], 1) ∧
    (Except.toOption ((sp_complete_recording c1db 10 1 2000 c1segs).bind
        fun d => sp_complete_recording d 10 1 2000 c1segs)).map
        (fun d => (d.subscriptions.map Subscription.used_seconds, d.segments.length))
      = some ([4], 2) := by
  constructor
  · decide
  · decide

/-- C2 counterexample: the recording created by a successful
sp_check_quota_and_create_recording run carries status processing (the
column DEFAULT of the recordings table), not pending as the claim states. -/
theorem sp_check_quota_created_recording_is_processing_not_pending :
    (Except.toOption (sp_check_quota_and_create_recording c2db 50 1 "upload" "vi")).map
        (fun rd => (rd.1, rd.2.recordings.map Recording.status))
      = some (ReserveResult.created 7, [RecStatus.processing]) ∧
    RecStatus.processing ≠ RecStatus.pending := by
  constructor
  · decide
  · decide

/-- C3 counterexample: with a plan of one monthly minute and 59 seconds
already used, the minute invariant holds before completion; the successful
completion of a 120000 ms recording is committed (not rejected) and leaves
used_seconds at 179, violating used_seconds ≤ monthly_minutes * 60. -/
theorem sp_complete_recording_breaks_minute_invariant :
    minuteInvariantB c3db = true ∧
    (Except.toOption (sp_complete_recording c3db 10 1 120000 [])).map minuteInvariantB
      = some false := by
  constructor
  · decide
  · decide

/-- C5 counterexample: the in-flight recording of c5db was created at time 5,
when the cycle window starting at 10 was not yet active; completing it at
time 15 adds the 3 charged seconds to the cycle [10, 20) that is active at
completion time, a cycle that does not contain the creation time. -/
theorem sp_complete_recording_charges_completion_time_cycle :
    c5db.recordings.map Recording.created_at = [5] ∧
    (Except.toOption (sp_complete_recording c5db 15 1 3000 [])).map
        (fun d => d.subscriptions.map fun s => (s.cycle_start, s.cycle_end, s.used_seconds))
      = some [((10 : Ts), (20 : Ts), (3 : Int))] ∧
    ¬ ((10 : Ts) ≤ 5 ∧ (5 : Ts) < 20) := by
  refine ⟨by decide, by decide, by decide⟩

/-- C6: sp_complete_recording applies an inbound callback without any
validation.  In c6db the target recording is already in the terminal done
status, and the submitted segment has index 5 (not contiguous from 0) with
start_ms 10 greater than end_ms 3; the call nevertheless succeeds, persists
the malformed segment verbatim and charges the subscription again. -/
theorem sp_complete_recording_applies_unvalidated_callback :
    c6db.recordings.map Recording.status = [RecStatus.done] ∧
    (Except.toOption (sp_complete_recording c6db 10 1 2000 c6segs)).map
        (fun d => (d.segments.map fun sg => (sg.idx, sg.start_ms, sg.end_ms),
                   d.subscriptions.map Subscription.used_seconds))
      = some ([((5 : Int), (10 : Int), (3 : Int))], [(4 : Int)]) := by
  constructor
  · decide
  · decide

/-- Pointwise description of a mapped list, used to relate a table before and
after one UPDATE statement. -/
theorem forall₂_map_self {α : Type} (f : α → α) (R : α → α → Prop) (l : List α)
    (h : ∀ a ∈ l, R a (f a)) : List.Forall₂ R l (l.map f) := by
  induction l with
  | nil => exact List.Forall₂.nil
  | cons a t ih =>
    exact List.Forall₂.cons (h a (by simp)) (ih fun x hx => h x (by simp [hx]))

/-- The truncation of a timestamp to its month start is at most the timestamp,
and the following month start is strictly beyond it. -/
theorem dateTruncMonth_bounds (t : Int) :
    dateTruncMonth t ≤ t ∧ t < dateTruncMonth t + monthLenSeconds := by
  show (2592000 : Int) * (t / 2592000) ≤ t ∧ t < 2592000 * (t / 2592000) + 2592000
  omega

/-- C4: a completion that raises leaves every subscription untouched — the
exception handler of sp_complete_recording rolls the block back and only
flips the recording to failed, so a recording that ends in the failed status
contributes nothing to used_seconds. -/
theorem failed_completion_charges_nothing :
    ∀ (db : DB) (now : Ts) (rid : Uuid) (d : Int) (segs : List RawSeg) (db2 : DB),
      sp_complete_recording db now rid d segs = Except.error db2 →
      db2.subscriptions = db.subscriptions ∧
      ∀ r ∈ db2.recordings, r.id = rid → r.status = RecStatus.failed := by
  intro db now rid d segs db2 h
  have hmark : ∀ dbx : DB, markFailed db rid = dbx →
      dbx.subscriptions = db.subscriptions ∧
      ∀ r ∈ dbx.recordings, r.id = rid → r.status = RecStatus.failed := by
    intro dbx hdbx
    subst hdbx
    refine ⟨rfl, ?_⟩
    intro r hr hid
    simp only [markFailed, List.mem_map] at hr
    obtain ⟨a, _, ha⟩ := hr
    by_cases hA : a.id = rid
    · rw [if_pos hA] at ha
      rw [← ha]
    · rw [if_neg hA] at ha
      rw [← ha] at hid
      exact absurd hid hA
  unfold sp_complete_recording at h
  cases hm : segs.mapM (castSeg rid) with
  | none =>
    rw [hm] at h
    dsimp only at h
    simp only [Except.error.injEq] at h
    exact hmark db2 h
  | some segsOk =>
    rw [hm] at h
    dsimp only at h
    split at h
    · simp only [Except.error.injEq] at h
      exact hmark db2 h
    · split at h
      · exact absurd h (by simp)
      · exact absurd h (by simp)

/-- C4 witness: a callback whose segment list has a NULL idx attribute raises;
the resulting state keeps the subscription ledger of c1db verbatim and shows
the recording as failed. -/
theorem failed_completion_charges_nothing_witness :
    ∃ db2 : DB,
      sp_complete_recording c1db 10 1 2000
          [{ idx := none, start_ms := some 0, end_ms := some 1000, text := "x" }]
        = Except.error db2 ∧
      db2.subscriptions = c1db.subscriptions ∧
      ∀ r ∈ db2.recordings, r.id = 1 → r.status = RecStatus.failed := by
  refine ⟨markFailed c1db 1, by rfl, ?_⟩
  exact failed_completion_charges_nothing c1db 10 1 2000
    [{ idx := none, start_ms := some 0, end_ms := some 1000, text := "x" }]
    (markFailed c1db 1) (by rfl)

/-- C7: after sp_reset_monthly_cycles, every subscription whose cycle_end had
passed has both counters at zero and a cycle_end strictly beyond the
execution time, and running the procedure again at the same time changes
nothing. -/
theorem sp_reset_monthly_cycles_spec :
    ∀ (db : DB) (now : Ts),
      (∀ s ∈ db.subscriptions, s.cycle_end ≤ now →
        ∃ s2 ∈ (sp_reset_monthly_cycles db now).subscriptions,
          s2.id = s.id ∧ s2.usage_count = 0 ∧ s2.used_seconds = 0 ∧
          now < s2.cycle_end) ∧
      sp_reset_monthly_cycles (sp_reset_monthly_cycles db now) now =
        sp_reset_monthly_cycles db now := by
  intro db now
  constructor
  · intro s hs hend
    refine ⟨if s.cycle_end ≤ now then
        { s with cycle_start := dateTruncMonth now,
                 cycle_end := dateTruncMonth now + monthLenSeconds,
                 usage_count := 0, used_seconds := 0 }
      else s, List.mem_map_of_mem _ hs, ?_⟩
    rw [if_pos hend]
    exact ⟨rfl, rfl, rfl, (dateTruncMonth_bounds now).2⟩
  · show ({ sp_reset_monthly_cycles db now with
        subscriptions := (sp_reset_monthly_cycles db now).subscriptions.map _ } : DB) = _
    simp only [sp_reset_monthly_cycles, List.map_map]
    congr 1
    apply List.map_congr_left
    intro s _
    by_cases hend : s.cycle_end ≤ now
    · have hne : ¬ (dateTruncMonth now + monthLenSeconds ≤ now) :=
        not_le.mpr (dateTruncMonth_bounds now).2
      simp only [Function.comp_apply, if_pos hend, if_neg hne]
    · simp only [Function.comp_apply, if_neg hend]

/-- C7 witness: a concrete run over one lapsed and one current subscription. -/
theorem sp_reset_monthly_cycles_spec_witness :
    (∃ s2 ∈ (sp_reset_monthly_cycles c5db 25).subscriptions,
      s2.id = 5 ∧ s2.usage_count = 0 ∧ s2.used_seconds = 0 ∧ (25 : Ts) < s2.cycle_end) ∧
    sp_reset_monthly_cycles (sp_reset_monthly_cycles c5db 25) 25 =
      sp_reset_monthly_cycles c5db 25 := by
  constructor
  · obtain ⟨s2, hmem, hid, hu, hs, hlt⟩ :=
      (sp_reset_monthly_cycles_spec c5db 25).1
        { id := 5, user_id := 1, plan_id := 1, cycle_start := 10,
          cycle_end := 20, usage_count := 0, used_seconds := 0,
          plan_code_snapshot := "FREE", plan_name_snapshot := "Free",
          plan_monthly_minutes_snapshot := 30,
          plan_monthly_usage_limit_snapshot := 10 }
        (by decide) (by decide)
    exact ⟨s2, hmem, by rw [hid], hu, hs, hlt⟩
  · exact (sp_reset_monthly_cycles_spec c5db 25).2

/-- C10: with no active subscription sp_get_user_stats returns the single
all-zero row instead of raising, and each percentage is guarded so a plan
with a zero monthly limit yields zero percent instead of dividing by zero. -/
theorem sp_get_user_stats_guards :
    (∀ (db : DB) (now : Ts) (uid : Uuid),
      activeSubscription db now uid = none →
      sp_get_user_stats db now uid = zeroStats) ∧
    (∀ (db : DB) (now : Ts) (uid : Uuid) (sub : Subscription) (p : Plan),
      activeSubscription db now uid = some sub →
      findPlan db sub.plan_id = some p →
      (p.monthly_usage_limit = 0 →
        (sp_get_user_stats db now uid).quota_usage_percent = 0) ∧
      (p.monthly_minutes = 0 →
        (sp_get_user_stats db now uid).quota_minutes_percent = 0)) := by
  constructor
  · intro db now uid h
    unfold sp_get_user_stats
    rw [h]
  · intro db now uid sub p hact hplan
    unfold sp_get_user_stats
    rw [hact]
    constructor
    · intro hz
      simp only [hplan]
      rw [if_neg (by rw [hz]; decide)]
    · intro hz
      simp only [hplan]
      rw [if_neg (by rw [hz]; decide)]

/-- A state whose single plan has both monthly limits at zero, with an active
subscription referencing it. -/
def c10db : DB :=
  { plans := [
      { id := 1, code := "ZERO", monthly_minutes := 0,
        monthly_usage_limit := 0, is_active := true }],
    subscriptions := [
      { id := 5, user_id := 1, plan_id := 1, cycle_start := 0,
        cycle_end := 100, usage_count := 0, used_seconds := 0,
        plan_code_snapshot := "ZERO", plan_name_snapshot := "Zero",
        plan_monthly_minutes_snapshot := 0, plan_monthly_usage_limit_snapshot := 0 }],
    recordings := [], segments := [], nextRecordingId := 2 }

/-- C10 witness: a user without subscription gets the all-zero row, and on
c10db both zero-limit percentages are zero. -/
theorem sp_get_user_stats_guards_witness :
    sp_get_user_stats c10db 50 99 = zeroStats ∧
    (sp_get_user_stats c10db 50 1).quota_usage_percent = 0 ∧
    (sp_get_user_stats c10db 50 1).quota_minutes_percent = 0 := by
  refine ⟨sp_get_user_stats_guards.1 c10db 50 99 (by rfl), ?_, ?_⟩
  · exact (sp_get_user_stats_guards.2 c10db 50 1
      { id := 5, user_id := 1, plan_id := 1, cycle_start := 0,
        cycle_end := 100, usage_count := 0, used_seconds := 0,
        plan_code_snapshot := "ZERO", plan_name_snapshot := "Zero",
        plan_monthly_minutes_snapshot := 0, plan_monthly_usage_limit_snapshot := 0 }
      { id := 1, code := "ZERO", monthly_minutes := 0,
        monthly_usage_limit := 0, is_active := true }
      (by rfl) (by rfl)).1 (by rfl)
  · exact (sp_get_user_stats_guards.2 c10db 50 1
      { id := 5, user_id := 1, plan_id := 1, cycle_start := 0,
        cycle_end := 100, usage_count := 0, used_seconds := 0,
        plan_code_snapshot := "ZERO", plan_name_snapshot := "Zero",
        plan_monthly_minutes_snapshot := 0, plan_monthly_usage_limit_snapshot := 0 }
      { id := 1, code := "ZERO", monthly_minutes := 0,
        monthly_usage_limit := 0, is_active := true }
      (by rfl) (by rfl)).2 (by rfl)

/-- C9: sp_change_user_plan never touches plans, recordings or segments; each
of the three failure guards (unknown plan code, no active subscription,
already on the target plan) returns success false with the state unchanged;
on success only the matched subscription row changes, receiving the new
plan_id and, exactly when in_prorate, zeroed counters — cycle window and
snapshot columns are never written. -/
theorem sp_change_user_plan_spec :
    ∀ (db : DB) (now : Ts) (uid : Uuid) (code : String) (prorate : Bool),
      ((sp_change_user_plan db now uid code prorate).2.plans = db.plans ∧
       (sp_change_user_plan db now uid code prorate).2.recordings = db.recordings ∧
       (sp_change_user_plan db now uid code prorate).2.segments = db.segments) ∧
      (db.plans.find? (fun p => decide (p.code = code)) = none →
        (sp_change_user_plan db now uid code prorate).1.success = false ∧
        (sp_change_user_plan db now uid code prorate).2 = db) ∧
      (∀ np : Plan, db.plans.find? (fun p => decide (p.code = code)) = some np →
        (activeSubscription db now uid = none →
          (sp_change_user_plan db now uid code prorate).1.success = false ∧
          (sp_change_user_plan db now uid code prorate).2 = db) ∧
        (∀ sub : Subscription, activeSubscription db now uid = some sub →
          (sub.plan_id = np.id →
            (sp_change_user_plan db now uid code prorate).1.success = false ∧
            (sp_change_user_plan db now uid code prorate).2 = db) ∧
          (sub.plan_id ≠ np.id →
            (sp_change_user_plan db now uid code prorate).1.success = true ∧
            (sp_change_user_plan db now uid code prorate).2.subscriptions =
              db.subscriptions.map (fun s =>
                if s.id = sub.id then
                  { s with plan_id := np.id,
                           usage_count := if prorate then 0 else s.usage_count,
                           used_seconds := if prorate then 0 else s.used_seconds }
                else s)))) := by
  intro db now uid code prorate
  cases hfind : db.plans.find? (fun p => decide (p.code = code)) with
  | none =>
    refine ⟨⟨?_, ?_, ?_⟩, fun _ => ⟨?_, ?_⟩, ?_⟩
    · simp [sp_change_user_plan, hfind]
    · simp [sp_change_user_plan, hfind]
    · simp [sp_change_user_plan, hfind]
    · simp [sp_change_user_plan, hfind]
    · simp [sp_change_user_plan, hfind]
    · intro np hnp
      exact Option.noConfusion hnp
  | some np0 =>
    cases hact : activeSubscription db now uid with
    | none =>
      refine ⟨⟨?_, ?_, ?_⟩, ?_, ?_⟩
      · simp [sp_change_user_plan, hfind, hact]
      · simp [sp_change_user_plan, hfind, hact]
      · simp [sp_change_user_plan, hfind, hact]
      · intro h
        exact Option.noConfusion h
      · intro np hnp
        injection hnp with hnp2
        subst hnp2
        refine ⟨fun _ => ⟨?_, ?_⟩, ?_⟩
        · simp [sp_change_user_plan, hfind, hact]
        · simp [sp_change_user_plan, hfind, hact]
        · intro sub hsub
          exact Option.noConfusion hsub
    | some sub0 =>
      by_cases hsame : sub0.plan_id = np0.id
      · refine ⟨⟨?_, ?_, ?_⟩, ?_, ?_⟩
        · simp [sp_change_user_plan, hfind, hact, hsame]
        · simp [sp_change_user_plan, hfind, hact, hsame]
        · simp [sp_change_user_plan, hfind, hact, hsame]
        · intro h
          exact Option.noConfusion h
        · intro np hnp
          injection hnp with hnp2
          subst hnp2
          refine ⟨?_, ?_⟩
          · intro h
            exact Option.noConfusion h
          · intro sub hsub
            injection hsub with hsub2
            subst hsub2
            refine ⟨fun _ => ⟨?_, ?_⟩, fun hne => absurd hsame hne⟩
            · simp [sp_change_user_plan, hfind, hact, hsame]
            · simp [sp_change_user_plan, hfind, hact, hsame]
      · refine ⟨⟨?_, ?_, ?_⟩, ?_, ?_⟩
        · simp [sp_change_user_plan, hfind, hact, hsame]
        · simp [sp_change_user_plan, hfind, hact, hsame]
        · simp [sp_change_user_plan, hfind, hact, hsame]
        · intro h
          exact Option.noConfusion h
        · intro np hnp
          injection hnp with hnp2
          subst hnp2
          refine ⟨?_, ?_⟩
          · intro h
            exact Option.noConfusion h
          · intro sub hsub
            injection hsub with hsub2
            subst hsub2
            refine ⟨fun heq => absurd heq hsame, fun _ => ⟨?_, ?_⟩⟩
            · simp [sp_change_user_plan, hfind, hact, hsame]
            · simp only [sp_change_user_plan, hfind, hact, if_neg hsame]
              cases prorate
              · apply List.map_congr_left
                intro s _
                by_cases hs : s.id = sub0.id <;> simp [hs]
              · rw [List.map_map]
                apply List.map_congr_left
                intro s _
                by_cases hs : s.id = sub0.id <;> simp [hs]

/-- The UNIQUE (user_id) constraint of user_subscriptions, as a pairwise
condition on the modelled table. -/
def uniqueUserSubs (db : DB) : Prop :=
  List.Pairwise (fun s1 s2 => s1.user_id ≠ s2.user_id) db.subscriptions

/-- Under the UNIQUE (user_id) constraint, two subscription rows of the same
user are the same row. -/
theorem pairwise_user_eq {l : List Subscription}
    (h : List.Pairwise (fun s1 s2 => s1.user_id ≠ s2.user_id) l)
    {a b : Subscription} (ha : a ∈ l) (hb : b ∈ l)
    (he : a.user_id = b.user_id) : a = b := by
  induction l with
  | nil => cases ha
  | cons x t ih =>
    obtain ⟨hx, ht⟩ := List.pairwise_cons.mp h
    rcases List.mem_cons.mp ha with rfl | ha2
    · rcases List.mem_cons.mp hb with rfl | hb2
      · rfl
      · exact absurd he (hx b hb2)
    · rcases List.mem_cons.mp hb with rfl | hb2
      · exact absurd he.symm (hx a ha2)
      · exact ih ht ha2 hb2

/-- Active-subscription lookup succeeds exactly on a member row matching the
user and whose cycle window contains now. -/
theorem activeSubscription_props {db : DB} {now : Ts} {uid : Uuid}
    {sub : Subscription} (h : activeSubscription db now uid = some sub) :
    sub ∈ db.subscriptions ∧ sub.user_id = uid ∧
    sub.cycle_start ≤ now ∧ now < sub.cycle_end := by
  have h2 : db.subscriptions.find?
      (fun s => decide (s.user_id = uid ∧ s.cycle_start ≤ now ∧ now < s.cycle_end))
      = some sub := h
  have hmem := List.mem_of_find?_eq_some h2
  have hp := List.find?_some h2
  exact ⟨hmem, of_decide_eq_true hp⟩

/-- Characterization of the recordings INSERT fired together with its trigger
when the reservation checks have passed: the new row is appended with the
processing default status, and the guarded trigger UPDATE adds one to
usage_count on the matching rows. -/
theorem trg_ok (db : DB) (now : Ts) (newRow : Recording)
    (sub : Subscription) (plan : Plan)
    (hact : activeSubscription db now newRow.user_id = some sub)
    (hplan : findPlan db sub.plan_id = some plan)
    (hlt : sub.usage_count < plan.monthly_usage_limit) :
    trg_increment_usage_on_recording db now newRow =
      Except.ok { db with subscriptions := db.subscriptions.map (fun s =>
        if s.user_id = newRow.user_id ∧ s.cycle_start ≤ now ∧ now < s.cycle_end ∧
            s.usage_count < plan.monthly_usage_limit
        then { s with usage_count := s.usage_count + 1 } else s) } := by
  obtain ⟨hmem, hu, hcs, hce⟩ := activeSubscription_props hact
  unfold trg_increment_usage_on_recording
  rw [hact]
  dsimp only
  rw [hplan]
  dsimp only
  rw [if_neg (not_le.mpr hlt)]
  rw [if_neg (Nat.pos_iff_ne_zero.mp (List.countP_pos_iff.mpr
    ⟨sub, hmem, decide_eq_true ⟨hu, hcs, hce, hlt⟩⟩))]

/-- Characterization of the recordings INSERT fired together with its trigger
when the reservation checks have passed: the new row is appended with the
processing default status, and the guarded trigger UPDATE adds one to
usage_count on the matching rows. -/
theorem insertRecording_ok (db : DB) (now : Ts) (uid : Uuid) (src lang : String)
    (sub : Subscription) (plan : Plan)
    (hact : activeSubscription db now uid = some sub)
    (hplan : findPlan db sub.plan_id = some plan)
    (hlt : sub.usage_count < plan.monthly_usage_limit) :
    insertRecording db now uid src lang =
      Except.ok (db.nextRecordingId,
        { plans := db.plans,
          subscriptions := db.subscriptions.map (fun s =>
            if s.user_id = uid ∧ s.cycle_start ≤ now ∧ now < s.cycle_end ∧
                s.usage_count < plan.monthly_usage_limit
            then { s with usage_count := s.usage_count + 1 } else s),
          recordings := db.recordings ++ [newRecordingRow db now uid src lang],
          segments := db.segments,
          nextRecordingId := db.nextRecordingId + 1 }) := by
  unfold insertRecording
  dsimp only
  rw [trg_ok
      { db with
          recordings := db.recordings ++ [newRecordingRow db now uid src lang],
          nextRecordingId := db.nextRecordingId + 1 }
      now (newRecordingRow db now uid src lang) sub plan hact hplan hlt]
  rfl

/-- C2 (amended: the created recording has status processing, the column
default, rather than pending): for every user, under the schema constraint of
one subscription row per user, the reservation procedure fails with the
no-active-subscription row when no cycle window contains now, fails with the
job-quota row when usage_count has reached monthly_usage_limit, fails with
the minute-quota row when used_seconds has reached monthly_minutes * 60, and
otherwise appends exactly one new processing recording and increments exactly
that subscription usage_count by one, leaving plans and segments alone. -/
theorem sp_check_quota_and_create_recording_spec :
    ∀ (db : DB) (now : Ts) (uid : Uuid) (src lang : String),
      uniqueUserSubs db →
      (activeSubscription db now uid = none →
        sp_check_quota_and_create_recording db now uid src lang =
          Except.ok (ReserveResult.noSubscription, db)) ∧
      (∀ (sub : Subscription) (plan : Plan),
        activeSubscription db now uid = some sub →
        findPlan db sub.plan_id = some plan →
        (plan.monthly_usage_limit ≤ sub.usage_count →
          sp_check_quota_and_create_recording db now uid src lang =
            Except.ok (ReserveResult.usageLimitReached plan.monthly_usage_limit, db)) ∧
        (sub.usage_count < plan.monthly_usage_limit →
          plan.monthly_minutes * 60 ≤ sub.used_seconds →
          sp_check_quota_and_create_recording db now uid src lang =
            Except.ok (ReserveResult.minutesLimitReached plan.monthly_minutes, db)) ∧
        (sub.usage_count < plan.monthly_usage_limit →
          sub.used_seconds < plan.monthly_minutes * 60 →
          ∃ db2,
            sp_check_quota_and_create_recording db now uid src lang =
              Except.ok (ReserveResult.created db.nextRecordingId, db2) ∧
            db2.recordings = db.recordings ++
              [{ id := db.nextRecordingId, user_id := uid, source := src,
                 language := lang, status := RecStatus.processing,
                 duration_ms := 0, created_at := now, completed_at := none }] ∧
            List.Forall₂ (fun s s2 =>
                (s = sub ∧ s2 = { s with usage_count := s.usage_count + 1 }) ∨
                (s ≠ sub ∧ s2 = s))
              db.subscriptions db2.subscriptions ∧
            db2.plans = db.plans ∧ db2.segments = db.segments)) := by
  intro db now uid src lang huniq
  constructor
  · intro h
    unfold sp_check_quota_and_create_recording
    rw [h]
  · intro sub plan hact hplan
    obtain ⟨hmem, hu, hcs, hce⟩ := activeSubscription_props hact
    refine ⟨?_, ?_, ?_⟩
    · intro hge
      unfold sp_check_quota_and_create_recording
      rw [hact]
      dsimp only
      rw [hplan]
      dsimp only
      rw [if_pos hge]
    · intro hlt hge
      unfold sp_check_quota_and_create_recording
      rw [hact]
      dsimp only
      rw [hplan]
      dsimp only
      rw [if_neg (not_le.mpr hlt), if_pos hge]
    · intro hlt hlts
      have hins := insertRecording_ok db now uid src lang sub plan hact hplan hlt
      unfold sp_check_quota_and_create_recording
      rw [hact]
      dsimp only
      rw [hplan]
      dsimp only
      rw [if_neg (not_le.mpr hlt), if_neg (not_le.mpr hlts), hins]
      dsimp only
      refine ⟨_, rfl, rfl, ?_, rfl, rfl⟩
      apply forall₂_map_self
      intro s hs
      by_cases hcond : s.user_id = uid ∧ s.cycle_start ≤ now ∧ now < s.cycle_end ∧
          s.usage_count < plan.monthly_usage_limit
      · have hseq : s = sub :=
          pairwise_user_eq huniq hs hmem (by rw [hcond.1, hu])
        rw [if_pos hcond]
        exact Or.inl ⟨hseq, rfl⟩
      · rw [if_neg hcond]
        refine Or.inr ⟨?_, rfl⟩
        intro hseq
        exact hcond (hseq ▸ ⟨hu, hcs, hce, hlt⟩)

/-- C2 witness: the concrete reservation on c2db creates recording 7 in
processing and bumps the single subscription row by one. -/
theorem sp_check_quota_and_create_recording_spec_witness :
    ∃ db2,
      sp_check_quota_and_create_recording c2db 50 1 "upload" "vi" =
        Except.ok (ReserveResult.created c2db.nextRecordingId, db2) ∧
      db2.recordings = c2db.recordings ++
        [{ id := c2db.nextRecordingId, user_id := 1, source := "upload",
           language := "vi", status := RecStatus.processing, duration_ms := 0,
           created_at := 50, completed_at := none }] ∧
      List.Forall₂ (fun s s2 =>
          (s = c2sub ∧ s2 = { s with usage_count := s.usage_count + 1 }) ∨
          (s ≠ c2sub ∧ s2 = s))
        c2db.subscriptions db2.subscriptions ∧
      db2.plans = c2db.plans ∧ db2.segments = c2db.segments := by
  exact ((sp_check_quota_and_create_recording_spec c2db 50 1 "upload" "vi"
      (by simp [uniqueUserSubs, c2db])).2 c2sub exPlan (by rfl) (by rfl)).2.2
    (by decide) (by decide)

/-- Inversion of a successful trigger run: it found an active subscription
with its plan, the quota check passed, and the state change is exactly the
guarded one-row increment. -/
theorem trg_ok_inv (db : DB) (now : Ts) (newRow : Recording) (db2 : DB)
    (h : trg_increment_usage_on_recording db now newRow = Except.ok db2) :
    ∃ sub plan, activeSubscription db now newRow.user_id = some sub ∧
      findPlan db sub.plan_id = some plan ∧
      sub.usage_count < plan.monthly_usage_limit ∧
      db2 = { db with subscriptions := db.subscriptions.map (fun s =>
        if s.user_id = newRow.user_id ∧ s.cycle_start ≤ now ∧ now < s.cycle_end ∧
            s.usage_count < plan.monthly_usage_limit
        then { s with usage_count := s.usage_count + 1 } else s) } := by
  unfold trg_increment_usage_on_recording at h
  cases hact : activeSubscription db now newRow.user_id with
  | none =>
    rw [hact] at h
    exact absurd h (by simp)
  | some sub =>
    rw [hact] at h
    dsimp only at h
    cases hplan : findPlan db sub.plan_id with
    | none =>
      rw [hplan] at h
      exact absurd h (by simp)
    | some plan =>
      rw [hplan] at h
      dsimp only at h
      by_cases hge : sub.usage_count ≥ plan.monthly_usage_limit
      · rw [if_pos hge] at h
        exact absurd h (by simp)
      · rw [if_neg hge] at h
        by_cases h0 : (db.subscriptions.countP fun s =>
            decide (s.user_id = newRow.user_id ∧ s.cycle_start ≤ now ∧
              now < s.cycle_end ∧ s.usage_count < plan.monthly_usage_limit)) = 0
        · rw [if_pos h0] at h
          exact absurd h (by simp)
        · rw [if_neg h0] at h
          simp only [Except.ok.injEq] at h
          exact ⟨sub, plan, rfl, hplan, lt_of_not_ge hge, h.symm⟩

/-- C3 (amended: the job-count half of the invariant is preserved by every
trigger-mediated increment, and a reservation at or past the minute limit is
rejected with the state unchanged; the seconds half is however not enforced
at completion time — see the counterexample — so only reservation-time
rejection protects used_seconds): a successful run of the usage trigger on a
table satisfying the job-count invariant leaves it satisfied, and
sp_check_quota_and_create_recording rejects without mutating anything when
used_seconds has reached monthly_minutes * 60. -/
theorem quota_counters_guarded :
    (∀ (db : DB) (now : Ts) (newRow : Recording) (db2 : DB),
      uniqueUserSubs db →
      trg_increment_usage_on_recording db now newRow = Except.ok db2 →
      usageInvariantB db = true → usageInvariantB db2 = true) ∧
    (∀ (db : DB) (now : Ts) (uid : Uuid) (src lang : String)
        (sub : Subscription) (plan : Plan),
      activeSubscription db now uid = some sub →
      findPlan db sub.plan_id = some plan →
      sub.usage_count < plan.monthly_usage_limit →
      plan.monthly_minutes * 60 ≤ sub.used_seconds →
      sp_check_quota_and_create_recording db now uid src lang =
        Except.ok (ReserveResult.minutesLimitReached plan.monthly_minutes, db)) := by
  constructor
  · intro db now newRow db2 huniq h hpre
    obtain ⟨sub, plan, hact, hplan, hlt, hdb2⟩ := trg_ok_inv db now newRow db2 h
    obtain ⟨hmem, hu, hcs, hce⟩ := activeSubscription_props hact
    subst hdb2
    unfold usageInvariantB at hpre ⊢
    rw [List.all_eq_true] at hpre ⊢
    simp only [findPlan] at hpre ⊢
    intro s2 hs2
    obtain ⟨s, hs, hfs⟩ := List.mem_map.mp hs2
    by_cases hcond : s.user_id = newRow.user_id ∧ s.cycle_start ≤ now ∧
        now < s.cycle_end ∧ s.usage_count < plan.monthly_usage_limit
    · rw [if_pos hcond] at hfs
      have hseq : s = sub :=
        pairwise_user_eq huniq hs hmem (hcond.1.trans hu.symm)
      have hplan2 : db.plans.find? (fun p => decide (p.id = s.plan_id))
          = some plan := by rw [hseq]; exact hplan
      rw [← hfs]
      dsimp only
      rw [hplan2]
      have hle : s.usage_count + 1 ≤ plan.monthly_usage_limit := by
        rw [hseq]
        exact Int.add_one_le_iff.mpr hlt
      exact decide_eq_true hle
    · rw [if_neg hcond] at hfs
      rw [← hfs]
      exact hpre s hs
  · intro db now uid src lang sub plan hact hplan hlt hge
    unfold sp_check_quota_and_create_recording
    rw [hact]
    dsimp only
    rw [hplan]
    dsimp only
    rw [if_neg (not_le.mpr hlt), if_pos hge]

/-- A state at the minute limit exactly: one minute allowed, sixty seconds
used, job quota still free. -/
def c3minDb : DB :=
  { plans := [
      { id := 1, code := "MINI", monthly_minutes := 1,
        monthly_usage_limit := 10, is_active := true }],
    subscriptions := [
      { id := 5, user_id := 1, plan_id := 1, cycle_start := 0,
        cycle_end := 100, usage_count := 1, used_seconds := 60,
        plan_code_snapshot := "MINI", plan_name_snapshot := "Mini",
        plan_monthly_minutes_snapshot := 1, plan_monthly_usage_limit_snapshot := 10 }],
    recordings := [], segments := [], nextRecordingId := 2 }

/-- C3 witness: a concrete trigger run on c2db preserves the job-count
invariant, and the reservation on c3minDb is rejected with the
minutes-limit row, leaving the state unchanged. -/
theorem quota_counters_guarded_witness :
    (∃ db2, trg_increment_usage_on_recording c2db 50
        (newRecordingRow c2db 50 1 "upload" "vi") = Except.ok db2 ∧
      usageInvariantB db2 = true) ∧
    sp_check_quota_and_create_recording c3minDb 50 1 "upload" "vi" =
      Except.ok (ReserveResult.minutesLimitReached 1, c3minDb) := by
  constructor
  · refine ⟨_, rfl, ?_⟩
    exact quota_counters_guarded.1 c2db 50 (newRecordingRow c2db 50 1 "upload" "vi")
      _ (by simp [uniqueUserSubs, c2db]) rfl (by decide)
  · exact quota_counters_guarded.2 c3minDb 50 1 "upload" "vi"
      { id := 5, user_id := 1, plan_id := 1, cycle_start := 0,
        cycle_end := 100, usage_count := 1, used_seconds := 60,
        plan_code_snapshot := "MINI", plan_name_snapshot := "Mini",
        plan_monthly_minutes_snapshot := 1, plan_monthly_usage_limit_snapshot := 10 }
      { id := 1, code := "MINI", monthly_minutes := 1,
        monthly_usage_limit := 10, is_active := true }
      (by rfl) (by rfl) (by decide) (by decide)

/-- C5 (amended: the charge is keyed on the completion time, not the creation
time): a successful completion of an existing recording adds exactly
duration_ms / 1000 seconds (PostgreSQL integer division, truncating toward
zero) to used_seconds of every subscription row of the recording owner whose
cycle window contains now() at completion, and leaves every other
subscription row unchanged; the cycle that was active when the recording was
created is never consulted. -/
theorem sp_complete_recording_charge_spec :
    ∀ (db : DB) (now : Ts) (rid : Uuid) (d : Int) (segs : List RawSeg)
      (db2 : DB) (recRow : Recording),
      (db.recordings.find? fun r => decide (r.id = rid)) = some recRow →
      sp_complete_recording db now rid d segs = Except.ok db2 →
      List.Forall₂ (fun s s2 =>
          (s.user_id = recRow.user_id ∧ s.cycle_start ≤ now ∧ now < s.cycle_end →
            s2 = { s with used_seconds := s.used_seconds + Int.tdiv d 1000 }) ∧
          (¬ (s.user_id = recRow.user_id ∧ s.cycle_start ≤ now ∧ now < s.cycle_end) →
            s2 = s))
        db.subscriptions db2.subscriptions := by
  intro db now rid d segs db2 recRow hfind h
  unfold sp_complete_recording at h
  rw [hfind] at h
  dsimp only at h
  cases hm : segs.mapM (castSeg rid) with
  | none =>
    rw [hm] at h
    exact absurd h (by simp)
  | some segsOk =>
    rw [hm] at h
    dsimp only at h
    simp only [Option.map_some'] at h
    have hnc : ¬ (segs ≠ [] ∧ (some recRow.user_id : Option Uuid) = none) := by
      simp
    rw [if_neg hnc] at h
    simp only [Except.ok.injEq] at h
    rw [← h]
    dsimp only
    apply forall₂_map_self
    intro s hs
    refine ⟨fun hc => ?_, fun hnc2 => ?_⟩
    · rw [if_pos hc]
    · rw [if_neg hnc2]

/-- C5 witness: completing c5rec (created at time 5) at time 15 with a 3000 ms
duration charges 3 seconds to the cycle [10, 20) alive at completion. -/
theorem sp_complete_recording_charge_spec_witness :
    ∃ db2,
      sp_complete_recording c5db 15 1 3000 [] = Except.ok db2 ∧
      List.Forall₂ (fun s s2 =>
          (s.user_id = c5rec.user_id ∧ s.cycle_start ≤ 15 ∧ (15 : Ts) < s.cycle_end →
            s2 = { s with used_seconds := s.used_seconds + Int.tdiv 3000 1000 }) ∧
          (¬ (s.user_id = c5rec.user_id ∧ s.cycle_start ≤ 15 ∧ (15 : Ts) < s.cycle_end) →
            s2 = s))
        c5db.subscriptions db2.subscriptions := by
  refine ⟨_, rfl, ?_⟩
  exact sp_complete_recording_charge_spec c5db 15 1 3000 [] _ c5rec (by rfl) rfl

/-- The administrative soft delete: UPDATE plans SET is_active = b WHERE
id = pid, the only write the spec allows on a published plan. -/
def setPlanActive (db : DB) (pid : Uuid) (b : Bool) : DB :=
  { db with plans := db.plans.map fun p =>
      if p.id = pid then { p with is_active := b } else p }

/-- find? commutes with a map that does not change the predicate value. -/
theorem find?_map_invariant {α : Type} {g : α → α} {q : α → Bool}
    (hq : ∀ p, q (g p) = q p) :
    ∀ l : List α, (l.map g).find? q = (l.find? q).map g := by
  intro l
  induction l with
  | nil => rfl
  | cons a t ih =>
    by_cases hqa : q a = true
    · have h1 : q (g a) = true := by rw [hq a]; exact hqa
      rw [List.map_cons, List.find?_cons_of_pos _ h1, List.find?_cons_of_pos _ hqa]
      rfl
    · have h1 : ¬ q (g a) = true := by rw [hq a]; exact hqa
      rw [List.map_cons, List.find?_cons_of_neg _ h1, List.find?_cons_of_neg _ hqa,
        ih]

/-- Toggling is_active never changes the id. -/
theorem toggle_id (pid : Uuid) (b : Bool) (p : Plan) :
    (if p.id = pid then { p with is_active := b } else p).id = p.id := by
  by_cases h : p.id = pid <;> simp [h]

/-- Toggling is_active never changes monthly_usage_limit. -/
theorem toggle_monthly_usage_limit (pid : Uuid) (b : Bool) (p : Plan) :
    (if p.id = pid then { p with is_active := b } else p).monthly_usage_limit
      = p.monthly_usage_limit := by
  by_cases h : p.id = pid <;> simp [h]

/-- Toggling is_active never changes monthly_minutes. -/
theorem toggle_monthly_minutes (pid : Uuid) (b : Bool) (p : Plan) :
    (if p.id = pid then { p with is_active := b } else p).monthly_minutes
      = p.monthly_minutes := by
  by_cases h : p.id = pid <;> simp [h]

/-- Looking a plan up by id after the soft delete yields the toggled image of
the original lookup. -/
theorem findPlan_setPlanActive (db : DB) (pid : Uuid) (b : Bool) (pid2 : Uuid) :
    findPlan (setPlanActive db pid b) pid2 =
      (findPlan db pid2).map
        (fun p => if p.id = pid then { p with is_active := b } else p) := by
  unfold findPlan setPlanActive
  dsimp only
  exact find?_map_invariant
    (fun p => by
      show decide ((if p.id = pid then { p with is_active := b } else p).id = pid2)
        = decide (p.id = pid2)
      rw [toggle_id])
    db.plans

/-- The usage trigger commutes with the soft delete: it never reads
is_active. -/
theorem trg_setPlanActive (db : DB) (pid : Uuid) (b : Bool) (now : Ts)
    (newRow : Recording) :
    trg_increment_usage_on_recording (setPlanActive db pid b) now newRow =
      (trg_increment_usage_on_recording db now newRow).map
        (fun d => setPlanActive d pid b) := by
  unfold trg_increment_usage_on_recording
  rw [show activeSubscription (setPlanActive db pid b) now newRow.user_id
    = activeSubscription db now newRow.user_id from rfl]
  cases hact : activeSubscription db now newRow.user_id with
  | none => rfl
  | some sub =>
    dsimp only
    rw [findPlan_setPlanActive]
    cases hplan : findPlan db sub.plan_id with
    | none => rfl
    | some plan =>
      simp only [Option.map_some']
      rw [toggle_monthly_usage_limit]
      by_cases hge : sub.usage_count ≥ plan.monthly_usage_limit
      · rw [if_pos hge, if_pos hge]
        rfl
      · rw [if_neg hge, if_neg hge]
        rw [show (setPlanActive db pid b).subscriptions = db.subscriptions from rfl]
        by_cases h0 : (db.subscriptions.countP fun s =>
            decide (s.user_id = newRow.user_id ∧ s.cycle_start ≤ now ∧
              now < s.cycle_end ∧ s.usage_count < plan.monthly_usage_limit)) = 0
        · rw [if_pos h0, if_pos h0]
          rfl
        · rw [if_neg h0, if_neg h0]
          rfl

/-- The recordings INSERT with its trigger commutes with the soft delete. -/
theorem insertRecording_setPlanActive (db : DB) (pid : Uuid) (b : Bool)
    (now : Ts) (uid : Uuid) (src lang : String) :
    insertRecording (setPlanActive db pid b) now uid src lang =
      (insertRecording db now uid src lang).map
        (fun rd => (rd.1, setPlanActive rd.2 pid b)) := by
  unfold insertRecording
  dsimp only
  rw [show newRecordingRow (setPlanActive db pid b) now uid src lang
    = newRecordingRow db now uid src lang from rfl]
  rw [show ({ setPlanActive db pid b with
        recordings := (setPlanActive db pid b).recordings ++
          [newRecordingRow db now uid src lang],
        nextRecordingId := (setPlanActive db pid b).nextRecordingId + 1 } : DB)
    = setPlanActive
        { db with
            recordings := db.recordings ++ [newRecordingRow db now uid src lang],
            nextRecordingId := db.nextRecordingId + 1 } pid b from rfl]
  rw [trg_setPlanActive]
  cases htr : trg_increment_usage_on_recording
      { db with
          recordings := db.recordings ++ [newRecordingRow db now uid src lang],
          nextRecordingId := db.nextRecordingId + 1 }
      now (newRecordingRow db now uid src lang) with
  | error e => rfl
  | ok dbx => rfl

/-- C8: the reservation outcome is oblivious to the is_active flag of any
plan — running sp_check_quota_and_create_recording on a state that differs
only in one plan is_active flag yields the same result row and the same
state change (modulo that same flag): deactivating a referenced plan does
not change the effective allowance the check enforces. -/
theorem sp_check_quota_ignores_plan_is_active :
    ∀ (db : DB) (now : Ts) (uid : Uuid) (src lang : String) (pid : Uuid)
      (b : Bool),
      sp_check_quota_and_create_recording (setPlanActive db pid b) now uid src lang =
        (sp_check_quota_and_create_recording db now uid src lang).map
          (fun rd => (rd.1, setPlanActive rd.2 pid b)) := by
  intro db now uid src lang pid b
  unfold sp_check_quota_and_create_recording
  rw [show activeSubscription (setPlanActive db pid b) now uid
    = activeSubscription db now uid from rfl]
  cases hact : activeSubscription db now uid with
  | none => rfl
  | some sub =>
    dsimp only
    rw [findPlan_setPlanActive]
    cases hplan : findPlan db sub.plan_id with
    | none =>
      simp only [Option.map_none']
      rw [insertRecording_setPlanActive]
      cases hins : insertRecording db now uid src lang with
      | error e => rfl
      | ok rd =>
        obtain ⟨rid, dbx⟩ := rd
        rfl
    | some plan =>
      simp only [Option.map_some']
      rw [toggle_monthly_usage_limit, toggle_monthly_minutes]
      by_cases hge : sub.usage_count ≥ plan.monthly_usage_limit
      · rw [if_pos hge, if_pos hge]
        rfl
      · rw [if_neg hge, if_neg hge]
        by_cases hge2 : sub.used_seconds ≥ plan.monthly_minutes * 60
        · rw [if_pos hge2, if_pos hge2]
          rfl
        · rw [if_neg hge2, if_neg hge2]
          rw [insertRecording_setPlanActive]
          cases hins : insertRecording db now uid src lang with
          | error e => rfl
          | ok rd =>
            obtain ⟨rid, dbx⟩ := rd
            rfl

/-- A second, larger plan available for a plan change. -/
def c9planPro : Plan :=
  { id := 2, code := "PRO", monthly_minutes := 300, monthly_usage_limit := 100,
    is_active := true }

/-- State with two plans and one subscription on the FREE-like plan. -/
def c9db : DB :=
  { plans := [exPlan, c9planPro], subscriptions := [c2sub],
    recordings := [], segments := [], nextRecordingId := 3 }

/-- C9 witness: moving the c9db user from FREE to PRO without prorate
succeeds and rewrites exactly the plan_id of the matched row. -/
theorem sp_change_user_plan_spec_witness :
    (sp_change_user_plan c9db 50 1 "PRO" false).1.success = true ∧
    (sp_change_user_plan c9db 50 1 "PRO" false).2.subscriptions =
      c9db.subscriptions.map (fun s =>
        if s.id = c2sub.id then
          { s with plan_id := c9planPro.id,
                   usage_count := if false then 0 else s.usage_count,
                   used_seconds := if false then 0 else s.used_seconds }
        else s) := by
  exact (((sp_change_user_plan_spec c9db 50 1 "PRO" false).2.2 c9planPro
    (by rfl)).2 c2sub (by rfl)).2 (by decide)

end BTL
